import Mathlib

/-!
Verification of the per-peer multiplexed stream manager (`BParticipant`,
`src/network/src/participant.rs`) against its natural-language specification.

The Rust code is shallowly embedded: machine integers become `Nat` (with an
explicit `% 2 ^ 64` where u64 overflow matters), the `HashMap` tables become
association lists queried only through key lookup, the tokio `select!` loops
become step functions from one fired input to an iteration result, and the
events the managers `send` on a protocol half become explicit event lists.
Sends on a protocol half are modelled as succeeding; the event list of an
iteration is the sequence of send calls the manager issues in order (a
`ProtocolError` in the source truncates that sequence and removes the channel,
participant.rs:293-298, which none of the proved statements depend on).
-/

/-- Stream id (`Sid`), a u64 newtype in `network_protocol`. -/
abbrev Sid := Nat

/-- Channel id (`Cid`), u64. -/
abbrev Cid := Nat

/-- Stream priority (`Prio`), u8. -/
abbrev Prio := Nat

/-- Promises bitset (`Promises`). -/
abbrev Promises := Nat

/-- Bandwidth hint (`Bandwidth`), u64. -/
abbrev Bandwidth := Nat

/-- Participant id (`Pid`), an uninterpreted 128-bit value. -/
abbrev Pid := Nat

/-- Modulus of u64 arithmetic. -/
def U64 : Nat := 2 ^ 64

/-- Opaque immutable byte buffer (`MessageBuffer`). -/
structure MessageBuffer where
  data : List Nat
deriving DecidableEq, Repr

/-- Protocol event vocabulary shared with the transport (`ProtocolEvent` in
`network_protocol`): `OpenStream`, `CloseStream`, `Message`, `Shutdown`. -/
inductive ProtocolEvent where
  | OpenStream (sid : Sid) (prio : Prio) (promises : Promises)
      (guaranteed_bandwidth : Bandwidth)
  | CloseStream (sid : Sid)
  | Message (sid : Sid) (mid : Nat) (buffer : MessageBuffer)
  | Shutdown
deriving DecidableEq, Repr

/-- Transport-level error returned by a protocol half (`ProtocolError` in
`network_protocol`; its content is never inspected by `BParticipant`). -/
inductive ProtocolError where
  | closed
  | violated
deriving DecidableEq, Repr

/-- Entry of the stream table (`StreamInfo`, participant.rs:40-45).  The
`b2a_msg_recv_s` mailbox sender is not needed by any proved statement and is
omitted; `send_closed` is the atomic flag stored in the table entry. -/
structure StreamInfo where
  prio : Prio
  promises : Promises
  send_closed : Bool
deriving DecidableEq, Repr

/-- Read-only data of a stream handle (`Stream` in `api.rs`, constructed by
`Stream::new` at participant.rs:634-644; the queue ends bundled into the
handle are plumbing and are omitted).  Named `StreamHandle` because Lean core
already owns the name `Stream`. -/
structure StreamHandle where
  remote_pid : Pid
  sid : Sid
  prio : Prio
  promises : Promises
  guaranteed_bandwidth : Bandwidth
deriving DecidableEq, Repr

/-- Keys of a stream table. -/
def keys (t : List (Sid × StreamInfo)) : List Sid := t.map Prod.fst

/-- Embedding of `BParticipant::create_stream` (participant.rs:612-645): insert
the stream into the table with `send_closed = false` (a `HashMap::insert`,
replacing any entry already under that key) and return the stream handle. -/
def create_stream (remote_pid : Pid) (streams : List (Sid × StreamInfo))
    (sid : Sid) (prio : Prio) (promises : Promises)
    (guaranteed_bandwidth : Bandwidth) :
    List (Sid × StreamInfo) × StreamHandle :=
  ((sid, ⟨prio, promises, false⟩) :: streams.filter (fun p => p.1 != sid),
   ⟨remote_pid, sid, prio, promises, guaranteed_bandwidth⟩)

/-- Embedding of `BParticipant::delete_stream` (participant.rs:589-610): remove
the entry if present (setting its shared `send_closed` flag and closing its
mailbox act on the removed entry); absence is not an error. -/
def delete_stream (streams : List (Sid × StreamInfo)) (sid : Sid) :
    List (Sid × StreamInfo) :=
  streams.filter (fun p => p.1 != sid)

/-- Step 1 of the shutdown coordinator (participant.rs:532-538): store `true`
into every stream's `send_closed` flag, leaving the table entries in place. -/
def setSendClosed (streams : List (Sid × StreamInfo)) :
    List (Sid × StreamInfo) :=
  streams.map (fun p => (p.1, { p.2 with send_closed := true }))

/-- The u64 increment `stream_ids += Sid::from(1)` (participant.rs:242). -/
def nextSid (s : Sid) : Sid := (s + 1) % U64

/-- Sid handed to the (n+1)-st local `open_stream` request when the counter
started at `offset`: the counter value after n increments. -/
def mintedSid (offset : Sid) : Nat → Sid
  | 0 => offset
  | n + 1 => nextSid (mintedSid offset n)

/-! ## Shutdown barrier (claim C1)

`shutdown_barrier` is an `AtomicI32` that starts at
`BARR_CHANNEL + BARR_SEND + BARR_RECV` (participant.rs:114-116); each manager
performs one `fetch_sub` of its own constant at its single exit point
(participant.rs:301-302, 426-427, 481-482). -/

/-- Constant subtracted by `create_channel_mgr` on exit (participant.rs:77). -/
def BARR_CHANNEL : Int := 1

/-- Constant subtracted by `send_mgr` on exit (participant.rs:79). -/
def BARR_SEND : Int := 2

/-- Constant subtracted by `recv_mgr` on exit (participant.rs:78). -/
def BARR_RECV : Int := 4

/-- Initial value of the shutdown barrier (participant.rs:114-116). -/
def barrierInit : Int := BARR_CHANNEL + BARR_SEND + BARR_RECV

/-- Which of the three managers have already executed their exit `fetch_sub`.
Each flag can only be set once because each manager's decrement sits after its
loop, on its unique exit path. -/
structure BarrierState where
  channelExited : Bool
  sendExited : Bool
  recvExited : Bool
deriving DecidableEq, Repr

/-- Value of the shutdown barrier in a given exit state. -/
def barrierValue (s : BarrierState) : Int :=
  barrierInit - (if s.channelExited then BARR_CHANNEL else 0)
    - (if s.sendExited then BARR_SEND else 0)
    - (if s.recvExited then BARR_RECV else 0)

/-- Transitions of the shutdown barrier during `run()`: the only writes are the
three exit decrements, and a manager that has exited cannot exit again. -/
inductive BarrierStep : BarrierState → BarrierState → Prop
  | channel (b c : Bool) : BarrierStep ⟨false, b, c⟩ ⟨true, b, c⟩
  | send (a c : Bool) : BarrierStep ⟨a, false, c⟩ ⟨a, true, c⟩
  | recv (a b : Bool) : BarrierStep ⟨a, b, false⟩ ⟨a, b, true⟩

/-! ## Send Manager (claims C2, C5, C6, C10)

One iteration of the `send_mgr` loop (participant.rs:198-299).  The `select!`
at the top of the loop fires exactly one of the five sources; `SendMgrInput`
records which one, with `none` for a source whose queue was closed.  The
crossbeam message queue is drained completely by `a2b_msg_r.try_iter()`
(participant.rs:266), so an iteration is a function of the fired input and of
the queue contents at that drain. -/

/-- Which of the five `select!` arms fired, and what it produced
(participant.rs:199-205).  The Bool in `openReq` models whether the caller's
one-shot reply receiver is still alive when the request is handled. -/
inductive SendMgrInput where
  | openReq (r : Option (Prio × Promises × Bandwidth × Bool))
  | closeReq (sid : Option Sid)
  | tick
  | addp (p : Option Cid)
  | remp (cid : Option Cid)
deriving DecidableEq, Repr

/-- How an iteration of `send_mgr` ended: `normal` continues the loop,
`exitedLoop` is the `break` when the send table empties (participant.rs:222-224),
`panicked` is the `.unwrap()` panic on the reply one-shot (participant.rs:261). -/
inductive IterStatus where
  | normal
  | exitedLoop
  | panicked
deriving DecidableEq, Repr

/-- State owned by `send_mgr` across iterations: the keys of its
`send_protocols` table, the `stream_ids` counter, and the shared stream
table. -/
structure SendMgrState where
  send_protocols : List Cid
  stream_ids : Sid
  streams : List (Sid × StreamInfo)
deriving DecidableEq, Repr

/-- Result of one `send_mgr` iteration.  `activeCid` is the channel selected
by `send_protocols.get_mut(&cid)` with `cid = 0` (participant.rs:229-236);
`activeEvents` are the events sent on it in order; `removedEvents` are events
sent on a channel being closed by `close_send_protocol` (participant.rs:216-218,
the `flush` there emits no `ProtocolEvent`, then `Shutdown` is sent). -/
structure SendIterResult where
  status : IterStatus
  activeCid : Option Cid
  activeEvents : List ProtocolEvent
  removedEvents : List (Cid × ProtocolEvent)
  reply : Option StreamHandle
  state : SendMgrState
deriving DecidableEq, Repr

/-- Key-set insert of `HashMap::insert` (participant.rs:209). -/
def insertCid (c : Cid) (ps : List Cid) : List Cid :=
  if ps.contains c then ps else c :: ps

/-- Key-set removal of `HashMap::remove` (participant.rs:213, 329). -/
def removeCid (c : Cid) (ps : List Cid) : List Cid :=
  ps.filter (fun x => x != c)

/-- The `Message` event built for one drained queue entry: `mid` is always 0
(participant.rs:268-274). -/
def mkMsgEvent (m : Sid × MessageBuffer) : ProtocolEvent :=
  ProtocolEvent.Message m.1 0 m.2

/-- Iteration outcome when channel 0 is not registered: `warn!("no channel
arrg"); continue` (participant.rs:232-235) — nothing is emitted on an active
channel and the loop goes on. -/
def noActiveIter (st : SendMgrState) (removed : List (Cid × ProtocolEvent)) :
    SendIterResult :=
  { status := IterStatus.normal, activeCid := none, activeEvents := [],
    removedEvents := removed, reply := none, state := st }

/-- Iteration outcome for an arm with no open/close action: select channel 0
if registered, drain the whole message queue onto it (participant.rs:266-275),
flush (no event). -/
def drainIter (st : SendMgrState) (queue : List (Sid × MessageBuffer))
    (removed : List (Cid × ProtocolEvent)) : SendIterResult :=
  if st.send_protocols.contains 0 then
    { status := IterStatus.normal, activeCid := some 0,
      activeEvents := queue.map mkMsgEvent,
      removedEvents := removed, reply := none, state := st }
  else noActiveIter st removed

/-- One iteration of the `send_mgr` loop (participant.rs:198-299). -/
def sendMgrIter (rp : Pid) (st : SendMgrState) (input : SendMgrInput)
    (queue : List (Sid × MessageBuffer)) : SendIterResult :=
  match input with
  | SendMgrInput.openReq none => drainIter st queue []
  | SendMgrInput.openReq (some (prio, promises, gb, alive)) =>
      if st.send_protocols.contains 0 then
        let sid := st.stream_ids
        let created := create_stream rp st.streams sid prio promises gb
        let st2 : SendMgrState :=
          ⟨st.send_protocols, nextSid st.stream_ids, created.1⟩
        if alive then
          { status := IterStatus.normal, activeCid := some 0,
            activeEvents := ProtocolEvent.OpenStream sid prio promises gb ::
              queue.map mkMsgEvent,
            removedEvents := [], reply := some created.2, state := st2 }
        else
          { status := IterStatus.panicked, activeCid := some 0,
            activeEvents := [], removedEvents := [], reply := none,
            state := st2 }
      else noActiveIter st []
  | SendMgrInput.closeReq none => drainIter st queue []
  | SendMgrInput.closeReq (some sid) =>
      if st.send_protocols.contains 0 then
        { status := IterStatus.normal, activeCid := some 0,
          activeEvents := queue.map mkMsgEvent ++
            [ProtocolEvent.CloseStream sid],
          removedEvents := [], reply := none,
          state := ⟨st.send_protocols, st.stream_ids,
            delete_stream st.streams sid⟩ }
      else noActiveIter st []
  | SendMgrInput.tick => drainIter st queue []
  | SendMgrInput.addp none => drainIter st queue []
  | SendMgrInput.addp (some c) =>
      drainIter ⟨insertCid c st.send_protocols, st.stream_ids, st.streams⟩
        queue []
  | SendMgrInput.remp none => drainIter st queue []
  | SendMgrInput.remp (some cid) =>
      let removed := if st.send_protocols.contains cid
        then [(cid, ProtocolEvent.Shutdown)] else []
      let ps2 := removeCid cid st.send_protocols
      let st2 : SendMgrState := ⟨ps2, st.stream_ids, st.streams⟩
      if ps2.isEmpty then
        { status := IterStatus.exitedLoop, activeCid := none,
          activeEvents := [], removedEvents := removed, reply := none,
          state := st2 }
      else drainIter st2 queue removed

/-- Run of consecutive `send_mgr` iterations.  Each element of the list is one
fired select arm together with the message-queue contents at that iteration's
drain; the run stops (state `none`) when an iteration breaks out of the loop
or panics, and collects the active-channel events in order. -/
def sendMgrRun (rp : Pid) (st : SendMgrState) :
    List (SendMgrInput × List (Sid × MessageBuffer)) →
      Option SendMgrState × List ProtocolEvent
  | [] => (some st, [])
  | step :: rest =>
      let r := sendMgrIter rp st step.1 step.2
      if r.status = IterStatus.normal then
        ((sendMgrRun rp r.state rest).1,
          r.activeEvents ++ (sendMgrRun rp r.state rest).2)
      else (none, r.activeEvents)

/-! ## Recv Manager (claim C9)

Handling of one funnel event `(cid, result, recv_half)` by the `recv_mgr`
loop (participant.rs:355-422). -/

/-- Effects of handling one received funnel event.  `closeSendRequest` is the
cid sent to the Send Manager's `close_send_protocol` queue (a failed send is
tolerated and only logged, participant.rs:405-407 and 414-416); `recvCids` is
the recv table key set after the event; `exited` records whether the loop
breaks; `created`/`deleted`/`delivered`/`orphanDropped` record the stream-table
side effects; `retriggered` is whether a fresh receive task is scheduled for
the channel. -/
structure RecvIterOut where
  closeSendRequest : Option Cid
  recvCids : List Cid
  exited : Bool
  created : Option (Sid × Prio × Promises × Bandwidth)
  deleted : Option Sid
  delivered : Option (Sid × MessageBuffer)
  orphanDropped : Bool
  retriggered : Bool
deriving DecidableEq, Repr

/-- Embedding of the `match r` dispatch of `recv_mgr` on one funnel event
(participant.rs:356-421).  `streams` is the key information of the shared
stream table used by the `Message` lookup; `recvCids` the recv table keys. -/
def recvHandleEvent (streams : List (Sid × StreamInfo)) (recvCids : List Cid)
    (cid : Cid) (r : Except ProtocolError ProtocolEvent) : RecvIterOut :=
  match r with
  | Except.ok (ProtocolEvent.OpenStream sid prio promises gb) =>
      ⟨none, recvCids, false, some (sid, prio, promises, gb), none, none,
        false, true⟩
  | Except.ok (ProtocolEvent.CloseStream sid) =>
      ⟨none, recvCids, false, none, some sid, none, false, true⟩
  | Except.ok (ProtocolEvent.Message sid _mid buffer) =>
      if (keys streams).contains sid then
        ⟨none, recvCids, false, none, none, some (sid, buffer), false, true⟩
      else
        ⟨none, recvCids, false, none, none, none, true, true⟩
  | Except.ok ProtocolEvent.Shutdown =>
      let cids := removeCid cid recvCids
      ⟨some cid, cids, cids.isEmpty, none, none, none, false, false⟩
  | Except.error _ =>
      let cids := removeCid cid recvCids
      ⟨some cid, cids, cids.isEmpty, none, none, none, false, false⟩

/-! ## Shutdown coordinator (claims C7, C8)

`participant_shutdown_mgr` (participant.rs:507-585). -/

/-- Error type of the shutdown reply one-shot (`ParticipantError` in
`api.rs`; its constructors are never built by `participant_shutdown_mgr`). -/
inductive ParticipantError where
  | participantDisconnected
  | protocolFailedUnrecoverable
deriving DecidableEq, Repr

/-- What the shutdown coordinator did: the stream table after step 1, the cids
sent to `close_send_protocol` (step 2), the cids sent to
`force_close_recv_protocol` (only on the timeout path, step 4), and the value
sent on the caller's reply one-shot (step 5). -/
structure ShutdownOutcome where
  closedStreams : List (Sid × StreamInfo)
  closeSendCids : List Cid
  forceCloseCids : List Cid
  reply : Except ParticipantError Unit

/-- Embedding of `participant_shutdown_mgr` after the shutdown request arrives
(participant.rs:529-580).  `timedOut` is the outcome of the select between
`wait_for_manager()` and the timeout sleep (participant.rs:559-562).  The
`assert!` that the channel table is non-empty (participant.rs:541-545) panics,
modelled as `none`. -/
def participant_shutdown_mgr (streams : List (Sid × StreamInfo))
    (channels : List Cid) (timedOut : Bool) : Option ShutdownOutcome :=
  if channels.isEmpty then none
  else some
    { closedStreams := setSendClosed streams
    , closeSendCids := channels
    , forceCloseCids := if timedOut then channels else []
    , reply := Except.ok () }

/-- Durations slept by one run of the `wait_for_manager` backoff loop
(participant.rs:513-526), starting from accumulator value `s`: each pass first
multiplies the accumulator by 1.4 and then sleeps for it.  The f64 arithmetic
of the source is modelled exactly over `ℚ`. -/
def sleepLoop (s : ℚ) : Nat → List ℚ
  | 0 => []
  | n + 1 => (s * (7 / 5)) :: sleepLoop (s * (7 / 5)) n

/-- The first `n` sleep durations of `wait_for_manager`: the accumulator
starts at `0.01` (participant.rs:514). -/
def sleepDurations (n : Nat) : List ℚ := sleepLoop (1 / 100) n

/-! ## Stream table traces (claim C4)

The stream table is written from exactly four places: the `open_stream`
branch of `send_mgr` (participant.rs:238-252, also minting the sid), the
`OpenStream` branch of `recv_mgr` (participant.rs:357-376), the
`close_stream` branch of `send_mgr` (participant.rs:277-283), and the
`CloseStream` branch of `recv_mgr` (participant.rs:377-381). -/

/-- External event driving one stream-table operation. -/
inductive PartEvent where
  | localOpen (prio : Prio) (promises : Promises) (gb : Bandwidth)
  | remoteOpen (sid : Sid) (prio : Prio) (promises : Promises) (gb : Bandwidth)
  | localClose (sid : Sid)
  | remoteClose (sid : Sid)
deriving DecidableEq, Repr

/-- A call into the stream table: `create_stream(sid)` or
`delete_stream(sid)`. -/
inductive TableCall where
  | create (sid : Sid)
  | del (sid : Sid)
deriving DecidableEq, Repr

/-- Stream-table-relevant state of a Participant: the `stream_ids` counter of
`send_mgr` and the shared stream table. -/
structure PartState where
  stream_ids : Sid
  streams : List (Sid × StreamInfo)
deriving DecidableEq, Repr

/-- One event's effect on the stream table, together with the table call it
performs.  A local open mints the next sid (participant.rs:241-242) and calls
`create_stream`; a remote `OpenStream` calls `create_stream` with the received
sid, with no existence check; closes call `delete_stream`. -/
def partStep (st : PartState) : PartEvent → PartState × TableCall
  | PartEvent.localOpen prio promises gb =>
      (⟨nextSid st.stream_ids,
        (create_stream 0 st.streams st.stream_ids prio promises gb).1⟩,
       TableCall.create st.stream_ids)
  | PartEvent.remoteOpen sid prio promises gb =>
      (⟨st.stream_ids, (create_stream 0 st.streams sid prio promises gb).1⟩,
       TableCall.create sid)
  | PartEvent.localClose sid =>
      (⟨st.stream_ids, delete_stream st.streams sid⟩, TableCall.del sid)
  | PartEvent.remoteClose sid =>
      (⟨st.stream_ids, delete_stream st.streams sid⟩, TableCall.del sid)

/-- Fold of `partStep` over a trace, collecting the table calls in order. -/
def partTrace (st : PartState) : List PartEvent → PartState × List TableCall
  | [] => (st, [])
  | e :: rest =>
      let s1 := partStep st e
      let s2 := partTrace s1.1 rest
      (s2.1, s1.2 :: s2.2)

/-- Scan of a call list checking property P1 of the spec: `create_stream(sid)`
is never called a second time without an intervening `delete_stream(sid)`.
`os` is the set of sids currently in the table (created and not yet
deleted). -/
def noSecondCreate (os : List Sid) : List TableCall → Bool
  | [] => true
  | TableCall.create s :: rest =>
      !os.contains s && noSecondCreate (s :: os.filter (fun x => x != s)) rest
  | TableCall.del s :: rest =>
      noSecondCreate (os.filter (fun x => x != s)) rest

/-- Freshness of a trace: every `create_stream` call it performs is for a sid
not currently in the stream table.  This is the environment assumption the
source does not enforce (neither `create_stream` nor its callers check for an
existing entry). -/
def freshOpens (st : PartState) : List PartEvent → Bool
  | [] => true
  | e :: rest =>
      (match e with
       | PartEvent.localOpen _ _ _ =>
           !(keys st.streams).contains st.stream_ids
       | PartEvent.remoteOpen sid _ _ _ => !(keys st.streams).contains sid
       | PartEvent.localClose _ => true
       | PartEvent.remoteClose _ => true) &&
      freshOpens (partStep st e).1 rest

/-! ## Claim C1: the shutdown barrier counter -/

/-- C1.  The shutdown barrier counter starts at
`BARR_CHANNEL + BARR_SEND + BARR_RECV`, three distinct positive integers; each
of the three managers subtracts its own constant exactly once when it exits
(a `BarrierStep` flips one exit flag that was still unset and lowers the value
by exactly that manager's constant, and no step exists once all three have
exited); the counter is non-increasing and non-negative during `run()`, and
reaches exactly zero on clean termination (all three managers exited). -/
theorem barrier_counter_invariant (s t : BarrierState) (h : BarrierStep s t) :
    barrierInit = BARR_CHANNEL + BARR_SEND + BARR_RECV ∧
    (0 < BARR_CHANNEL ∧ 0 < BARR_SEND ∧ 0 < BARR_RECV) ∧
    (BARR_CHANNEL ≠ BARR_SEND ∧ BARR_SEND ≠ BARR_RECV ∧
      BARR_CHANNEL ≠ BARR_RECV) ∧
    barrierValue ⟨false, false, false⟩ = barrierInit ∧
    barrierValue t < barrierValue s ∧
    (barrierValue s - barrierValue t = BARR_CHANNEL ∨
     barrierValue s - barrierValue t = BARR_SEND ∨
     barrierValue s - barrierValue t = BARR_RECV) ∧
    0 ≤ barrierValue t ∧
    barrierValue ⟨true, true, true⟩ = 0 ∧
    ¬ ∃ u, BarrierStep ⟨true, true, true⟩ u := by
  refine ⟨by decide, by decide, by decide, by decide, ?_, ?_, ?_, by decide,
    ?_⟩
  · cases h with
    | channel b c => cases b <;> cases c <;> decide
    | send a c => cases a <;> cases c <;> decide
    | recv a b => cases a <;> cases b <;> decide
  · cases h with
    | channel b c => cases b <;> cases c <;> decide
    | send a c => cases a <;> cases c <;> decide
    | recv a b => cases a <;> cases b <;> decide
  · cases h with
    | channel b c => cases b <;> cases c <;> decide
    | send a c => cases a <;> cases c <;> decide
    | recv a b => cases a <;> cases b <;> decide
  · rintro ⟨u, hu⟩
    cases hu

/-- Witness for `barrier_counter_invariant`: the `send_mgr` exit decrement
taken from the initial state. -/
theorem barrier_counter_invariant_witness :
    barrierInit = BARR_CHANNEL + BARR_SEND + BARR_RECV ∧
    (0 < BARR_CHANNEL ∧ 0 < BARR_SEND ∧ 0 < BARR_RECV) ∧
    (BARR_CHANNEL ≠ BARR_SEND ∧ BARR_SEND ≠ BARR_RECV ∧
      BARR_CHANNEL ≠ BARR_RECV) ∧
    barrierValue ⟨false, false, false⟩ = barrierInit ∧
    barrierValue ⟨false, true, false⟩ < barrierValue ⟨false, false, false⟩ ∧
    (barrierValue ⟨false, false, false⟩ - barrierValue ⟨false, true, false⟩ =
      BARR_CHANNEL ∨
     barrierValue ⟨false, false, false⟩ - barrierValue ⟨false, true, false⟩ =
      BARR_SEND ∨
     barrierValue ⟨false, false, false⟩ - barrierValue ⟨false, true, false⟩ =
      BARR_RECV) ∧
    0 ≤ barrierValue ⟨false, true, false⟩ ∧
    barrierValue ⟨true, true, true⟩ = 0 ∧
    ¬ ∃ u, BarrierStep ⟨true, true, true⟩ u :=
  barrier_counter_invariant ⟨false, false, false⟩ ⟨false, true, false⟩
    (BarrierStep.send false false)

/-! ## Claim C2: active channel selection -/

/-- C2, counterexample.  With the send table holding exactly channel 1 — a
registered channel, and the smallest one — and a message queued, the iteration
selects no active channel and emits nothing: the claim that the active channel
is the registered channel with the smallest Cid is false, because the source
hardcodes `let cid = 0;` (participant.rs:229). -/
theorem active_channel_smallest_cid_cex :
    (sendMgrIter 0 ⟨[1], 1000, []⟩ SendMgrInput.tick
        [(5, ⟨[2]⟩)]).activeCid = none ∧
    (sendMgrIter 0 ⟨[1], 1000, []⟩ SendMgrInput.tick
        [(5, ⟨[2]⟩)]).activeEvents = [] ∧
    ([1] : List Cid) ≠ [] ∧ (∀ c ∈ ([1] : List Cid), 1 ≤ c) := by
  decide

/-- C2, amended: on every Send Manager loop iteration — whichever of the five
select arms fired (open request, close request, flush tick, add send half,
close send half) — the only channel ever chosen as the active channel is the
channel with Cid 0, because the source hardcodes `let cid = 0;`
(participant.rs:229).  When no active channel is chosen, the iteration emits
no event on an active channel (in particular no `OpenStream`, `Message` or
`CloseStream`) and does not panic; and an active channel is chosen exactly
when channel 0 is in the send table at the `send_protocols.get_mut(&cid)`
lookup — i.e. after the add/remove of this iteration's arm, which is the
table the iteration's result state carries.  So channel 0 being absent means
nothing is emitted on an active channel even when other channels are
registered. -/
theorem active_channel_always_zero (rp : Pid) (st : SendMgrState)
    (input : SendMgrInput) (q : List (Sid × MessageBuffer)) :
    (∀ c : Cid, (sendMgrIter rp st input q).activeCid = some c → c = 0) ∧
    ((sendMgrIter rp st input q).activeCid = none →
      (sendMgrIter rp st input q).activeEvents = [] ∧
      (sendMgrIter rp st input q).status ≠ IterStatus.panicked) ∧
    ((sendMgrIter rp st input q).activeCid = some 0 ↔
      (sendMgrIter rp st input q).state.send_protocols.contains 0 = true) := by
  cases input with
  | openReq r =>
      match r with
      | none =>
          by_cases h : (0 : Cid) ∈ st.send_protocols <;>
            simp [sendMgrIter, drainIter, noActiveIter, h]
      | some (prio, promises, gb, alive) =>
          cases alive <;>
            by_cases h : (0 : Cid) ∈ st.send_protocols <;>
              simp [sendMgrIter, drainIter, noActiveIter, h]
  | closeReq s =>
      match s with
      | none =>
          by_cases h : (0 : Cid) ∈ st.send_protocols <;>
            simp [sendMgrIter, drainIter, noActiveIter, h]
      | some sid =>
          by_cases h : (0 : Cid) ∈ st.send_protocols <;>
            simp [sendMgrIter, drainIter, noActiveIter, h]
  | tick =>
      by_cases h : (0 : Cid) ∈ st.send_protocols <;>
        simp [sendMgrIter, drainIter, noActiveIter, h]
  | addp p =>
      match p with
      | none =>
          by_cases h : (0 : Cid) ∈ st.send_protocols <;>
            simp [sendMgrIter, drainIter, noActiveIter, h]
      | some c =>
          by_cases h : (0 : Cid) ∈ insertCid c st.send_protocols <;>
            simp [sendMgrIter, drainIter, noActiveIter, h]
  | remp c =>
      match c with
      | none =>
          by_cases h : (0 : Cid) ∈ st.send_protocols <;>
            simp [sendMgrIter, drainIter, noActiveIter, h]
      | some cid =>
          by_cases he : (removeCid cid st.send_protocols).isEmpty = true
          · have he2 : removeCid cid st.send_protocols = [] := by
              simpa using he
            simp [sendMgrIter, he2]
          · by_cases h : (0 : Cid) ∈ removeCid cid st.send_protocols <;>
              simp [sendMgrIter, drainIter, noActiveIter, he, h]

/-! ## Claim C3: locally minted stream ids -/

/-- Helper: below the u64 wrap, the counter after `n` increments is just
`offset + n`. -/
theorem mintedSid_eq_add (offset : Sid) (n : Nat) (h : offset + n < U64) :
    mintedSid offset n = offset + n := by
  induction n with
  | zero => rfl
  | succ k ih =>
      have hk : mintedSid offset k = offset + k :=
        ih (Nat.lt_of_le_of_lt (Nat.add_le_add_left (Nat.le_succ k) offset) h)
      show nextSid (mintedSid offset k) = offset + (k + 1)
      rw [hk]
      exact Nat.mod_eq_of_lt h

/-- C3, counterexample.  Local ids are minted with `stream_ids +=
Sid::from(1)` (participant.rs:242), so consecutive requests receive ids of
both parities: with `offset_sid = 0` the first two minted sids are even and
odd, and the second locally minted sid of an endpoint with offset 0 equals the
first minted sid of an endpoint with offset 1 — no odd/even id class separates
the two endpoints' ids. -/
theorem sid_parity_disjoint_cex :
    mintedSid 0 0 % 2 = 0 ∧ mintedSid 0 1 % 2 = 1 ∧
    mintedSid 0 1 = mintedSid 1 0 := by
  decide

/-- C3, amended: the nth `open_stream` request receives sid `offset_sid +
(n-1)` (u64 arithmetic), so as long as the counter does not wrap the locally
minted sids are strictly increasing from `offset_sid`; the minted ids are
consecutive, hence disjointness from the remote endpoint's ids holds only when
the two offsets delimit disjoint ranges, not through an odd/even class. -/
theorem minted_sids_monotone (offset : Sid) (m n : Nat) (h : offset + n < U64)
    (hmn : m < n) :
    mintedSid offset n = offset + n ∧
    mintedSid offset m < mintedSid offset n := by
  have hm : offset + m < U64 :=
    Nat.lt_of_le_of_lt (Nat.add_le_add_left (Nat.le_of_lt hmn) offset) h
  rw [mintedSid_eq_add offset n h, mintedSid_eq_add offset m hm]
  exact ⟨rfl, Nat.add_lt_add_left hmn offset⟩

/-- Witness for `minted_sids_monotone` at offset 1000 (the test offset,
participant.rs:680), first and second request. -/
theorem minted_sids_monotone_witness :
    1000 + 1 < U64 ∧ 0 < 1 ∧
    (mintedSid 1000 1 = 1000 + 1 ∧ mintedSid 1000 0 < mintedSid 1000 1) :=
  ⟨by decide, by decide, minted_sids_monotone 1000 0 1 (by decide) (by decide)⟩

/-! ## Claim C4: stream table uniqueness -/

/-- Helper: taking table keys commutes with removing one key. -/
theorem keys_filter_ne (tbl : List (Sid × StreamInfo)) (sid : Sid) :
    keys (tbl.filter (fun p => p.1 != sid)) =
      (keys tbl).filter (fun x => x != sid) := by
  induction tbl with
  | nil => rfl
  | cons hd tl ih =>
      by_cases hh : hd.1 = sid
      · simp [keys, List.filter_cons, hh] at ih ⊢
        exact ih
      · simp [keys, List.filter_cons, hh] at ih ⊢
        exact ih

/-- Helper: keys of the table after `create_stream`. -/
theorem keys_create (rp : Pid) (tbl : List (Sid × StreamInfo)) (sid : Sid)
    (prio : Prio) (promises : Promises) (gb : Bandwidth) :
    keys (create_stream rp tbl sid prio promises gb).1 =
      sid :: (keys tbl).filter (fun x => x != sid) := by
  show sid :: keys (tbl.filter (fun p => p.1 != sid)) = _
  rw [keys_filter_ne]

/-- Helper: keys of the table after `delete_stream`. -/
theorem keys_delete (tbl : List (Sid × StreamInfo)) (sid : Sid) :
    keys (delete_stream tbl sid) = (keys tbl).filter (fun x => x != sid) :=
  keys_filter_ne tbl sid

/-- Helper: a trace all of whose `create_stream` calls are for sids not
currently in the table produces a call list in which no sid is created twice
without an intervening delete.  The scan's set of open sids tracks the table
keys exactly. -/
theorem noSecondCreate_of_freshOpens (tr : List PartEvent) (st : PartState)
    (h : freshOpens st tr = true) :
    noSecondCreate (keys st.streams) (partTrace st tr).2 = true := by
  induction tr generalizing st with
  | nil => rfl
  | cons e rest ih =>
      cases e with
      | localOpen prio promises gb =>
          simp only [freshOpens, Bool.and_eq_true] at h
          obtain ⟨h1, h2⟩ := h
          have ihh := ih _ h2
          simp only [partStep] at ihh
          rw [keys_create] at ihh
          show (!(keys st.streams).contains st.stream_ids &&
            noSecondCreate (st.stream_ids ::
              (keys st.streams).filter (fun x => x != st.stream_ids))
              (partTrace (partStep st
                (PartEvent.localOpen prio promises gb)).1 rest).2) = true
          rw [Bool.and_eq_true]
          exact ⟨h1, ihh⟩
      | remoteOpen sid prio promises gb =>
          simp only [freshOpens, Bool.and_eq_true] at h
          obtain ⟨h1, h2⟩ := h
          have ihh := ih _ h2
          simp only [partStep] at ihh
          rw [keys_create] at ihh
          show (!(keys st.streams).contains sid &&
            noSecondCreate (sid ::
              (keys st.streams).filter (fun x => x != sid))
              (partTrace (partStep st
                (PartEvent.remoteOpen sid prio promises gb)).1 rest).2) = true
          rw [Bool.and_eq_true]
          exact ⟨h1, ihh⟩
      | localClose sid =>
          simp only [freshOpens, Bool.true_and] at h
          have ihh := ih _ h
          simp only [partStep] at ihh
          rw [keys_delete] at ihh
          exact ihh
      | remoteClose sid =>
          simp only [freshOpens, Bool.true_and] at h
          have ihh := ih _ h
          simp only [partStep] at ihh
          rw [keys_delete] at ihh
          exact ihh

/-- C4, counterexample.  A remote endpoint that sends `OpenStream` twice with
the same sid makes `recv_mgr` call `create_stream(5)` twice with no
intervening `delete_stream(5)`: neither `create_stream` (participant.rs:623,
an unconditional `HashMap::insert`) nor its callers check for an existing
entry, so the claim is false for this trace. -/
theorem stream_uniqueness_cex :
    (partTrace ⟨1000, []⟩ [PartEvent.remoteOpen 5 7 1 100,
      PartEvent.remoteOpen 5 7 1 100]).2 =
      [TableCall.create 5, TableCall.create 5] ∧
    noSecondCreate [] [TableCall.create 5, TableCall.create 5] = false := by
  decide

/-- C4, amended: over any trace of local `open_stream` requests and received
`OpenStream`/`CloseStream` events in which every `create_stream` call is for a
sid not currently in the stream table (the environment assumption the code
relies on but does not enforce — in particular the remote may not repeat an
`OpenStream` for a live sid, and may not anticipate a sid the local counter
will mint), `create_stream(sid)` is never invoked a second time without an
intervening `delete_stream(sid)`. -/
theorem stream_uniqueness_fresh (offset : Sid) (tr : List PartEvent)
    (h : freshOpens ⟨offset, []⟩ tr = true) :
    noSecondCreate [] (partTrace ⟨offset, []⟩ tr).2 = true :=
  noSecondCreate_of_freshOpens tr ⟨offset, []⟩ h

/-- Witness for `stream_uniqueness_fresh`: a local open (sid 1000), a remote
open (sid 5), a local close of 1000 and a further local open (sid 1001). -/
theorem stream_uniqueness_fresh_witness :
    freshOpens ⟨1000, []⟩ [PartEvent.localOpen 7 1 100,
      PartEvent.remoteOpen 5 9 2 200, PartEvent.localClose 1000,
      PartEvent.localOpen 3 0 50] = true ∧
    noSecondCreate [] (partTrace ⟨1000, []⟩ [PartEvent.localOpen 7 1 100,
      PartEvent.remoteOpen 5 9 2 200, PartEvent.localClose 1000,
      PartEvent.localOpen 3 0 50]).2 = true :=
  ⟨by decide, stream_uniqueness_fresh 1000 _ (by decide)⟩

/-! ## Claim C5: send_closed and queued messages -/

/-- C5, counterexample.  The stream table holds sid 5 with `send_closed =
true` (as the shutdown coordinator's step 1 leaves it), a message for sid 5
is already on the send queue, and the next iteration still emits a `Message`
event for sid 5: the drain loop (participant.rs:266-275) never consults
`send_closed`. -/
theorem send_closed_queued_messages_cex :
    setSendClosed [(5, ⟨7, 1, false⟩)] = [(5, ⟨7, 1, true⟩)] ∧
    ProtocolEvent.Message 5 0 ⟨[9]⟩ ∈
      (sendMgrIter 0 ⟨[0], 1000, setSendClosed [(5, ⟨7, 1, false⟩)]⟩
        SendMgrInput.tick [(5, ⟨[9]⟩)]).activeEvents := by
  decide

/-- C5, amended: the Send Manager's drain emits every `(sid, buffer)` tuple
currently on the send queue, in order, regardless of any stream's
`send_closed` flag — the flag (set by `delete_stream` or by shutdown step 1)
only makes the API side reject new writes, it does not stop messages already
queued from being emitted.  The emitted events are identical whether or not
every stream in the table has `send_closed` set. -/
theorem drain_ignores_send_closed (rp : Pid) (ps : List Cid) (ids : Sid)
    (tbl : List (Sid × StreamInfo)) (q : List (Sid × MessageBuffer))
    (h : ps.contains 0 = true) :
    (sendMgrIter rp ⟨ps, ids, setSendClosed tbl⟩ SendMgrInput.tick
        q).activeEvents = q.map mkMsgEvent ∧
    (sendMgrIter rp ⟨ps, ids, setSendClosed tbl⟩ SendMgrInput.tick
        q).activeEvents =
      (sendMgrIter rp ⟨ps, ids, tbl⟩ SendMgrInput.tick q).activeEvents := by
  simp at h
  simp [sendMgrIter, drainIter, h]

/-- Witness for `drain_ignores_send_closed` at a one-entry table and a
one-message queue. -/
theorem drain_ignores_send_closed_witness :
    ([0] : List Cid).contains 0 = true ∧
    ((sendMgrIter 0 ⟨[0], 1000, setSendClosed [(5, ⟨7, 1, false⟩)]⟩
        SendMgrInput.tick [(5, ⟨[9]⟩)]).activeEvents =
      [(5, (⟨[9]⟩ : MessageBuffer))].map mkMsgEvent ∧
    (sendMgrIter 0 ⟨[0], 1000, setSendClosed [(5, ⟨7, 1, false⟩)]⟩
        SendMgrInput.tick [(5, ⟨[9]⟩)]).activeEvents =
      (sendMgrIter 0 ⟨[0], 1000, [(5, ⟨7, 1, false⟩)]⟩ SendMgrInput.tick
        [(5, ⟨[9]⟩)]).activeEvents) :=
  ⟨by decide, drain_ignores_send_closed 0 [0] 1000 [(5, ⟨7, 1, false⟩)]
    [(5, ⟨[9]⟩)] (by decide)⟩

/-! ## Claim C6: CloseStream after queued messages -/

/-- Helper: a run decomposes over list append as long as its first part
completes without breaking out of the loop or panicking. -/
theorem sendMgrRun_append_of_some (rp : Pid) (st st1 : SendMgrState)
    (pre post : List (SendMgrInput × List (Sid × MessageBuffer)))
    (h : (sendMgrRun rp st pre).1 = some st1) :
    sendMgrRun rp st (pre ++ post) =
      ((sendMgrRun rp st1 post).1,
        (sendMgrRun rp st pre).2 ++ (sendMgrRun rp st1 post).2) := by
  induction pre generalizing st with
  | nil =>
      have hst : st = st1 := Option.some.inj h
      subst hst
      simp [sendMgrRun]
  | cons step rest ih =>
      by_cases hs :
        (sendMgrIter rp st step.1 step.2).status = IterStatus.normal
      · have hpre : (sendMgrRun rp
            (sendMgrIter rp st step.1 step.2).state rest).1 = some st1 := by
          simpa [sendMgrRun, hs] using h
        rw [List.cons_append]
        simp only [sendMgrRun, hs, if_true, if_pos]
        rw [ih _ hpre]
        simp [List.append_assoc]
      · exfalso
        simp [sendMgrRun, hs] at h

/-- C6.  For every stream sid, a locally issued `close_stream(sid)` makes the
Send Manager emit `CloseStream` only after a `Message` event for every
`(sid, buffer)` tuple on the send queue when the close is handled, and after
all events of all earlier iterations (in particular every message drained
from the queue before the close request was handled): each loop iteration
drains the whole message queue before performing the close action
(participant.rs:266-283), so the run's event sequence ends with the drained
messages followed directly by `CloseStream{sid}`. -/
theorem close_stream_after_queued_messages (rp : Pid) (st st1 : SendMgrState)
    (steps : List (SendMgrInput × List (Sid × MessageBuffer)))
    (q : List (Sid × MessageBuffer)) (sid : Sid)
    (hpre : (sendMgrRun rp st steps).1 = some st1)
    (h0 : st1.send_protocols.contains 0 = true) :
    (sendMgrRun rp st
        (steps ++ [(SendMgrInput.closeReq (some sid), q)])).2 =
      (sendMgrRun rp st steps).2 ++ q.map mkMsgEvent ++
        [ProtocolEvent.CloseStream sid] := by
  rw [sendMgrRun_append_of_some rp st st1 steps _ hpre]
  simp at h0
  simp [sendMgrRun, sendMgrIter, h0, List.append_assoc]

/-- Witness for `close_stream_after_queued_messages`: one tick iteration
draining a message for sid 5, then the close of sid 5 arriving with a second
message still queued. -/
theorem close_stream_after_queued_messages_witness :
    (sendMgrRun 0 ⟨[0], 1000, []⟩ [(SendMgrInput.tick, [(5, ⟨[1]⟩)])]).1 =
      some ⟨[0], 1000, []⟩ ∧
    ([0] : List Cid).contains 0 = true ∧
    (sendMgrRun 0 ⟨[0], 1000, []⟩ ([(SendMgrInput.tick, [(5, ⟨[1]⟩)])] ++
        [(SendMgrInput.closeReq (some 5), [(5, ⟨[2]⟩)])])).2 =
      (sendMgrRun 0 ⟨[0], 1000, []⟩ [(SendMgrInput.tick, [(5, ⟨[1]⟩)])]).2 ++
        ([(5, (⟨[2]⟩ : MessageBuffer))].map mkMsgEvent) ++
        [ProtocolEvent.CloseStream 5] :=
  ⟨by decide, by decide,
    close_stream_after_queued_messages 0 ⟨[0], 1000, []⟩ ⟨[0], 1000, []⟩
      [(SendMgrInput.tick, [(5, ⟨[1]⟩)])] [(5, ⟨[2]⟩)] 5 (by decide)
      (by decide)⟩

/-! ## Claim C7: shutdown always replies Ok -/

/-- C7.  On a non-empty channel table (the coordinator's `assert!`,
participant.rs:541-545), the shutdown coordinator completes and sends
`Ok(())` on the caller's reply one-shot for both values of the timeout
select — the clean path and the timeout path, which additionally force-closes
every recv half; the reply is never an `Err` (the single reply site is
`sender.send(Ok(()))`, participant.rs:580). -/
theorem shutdown_reply_always_ok (streams : List (Sid × StreamInfo))
    (channels : List Cid) (timedOut : Bool) (h : channels ≠ []) :
    ∃ out, participant_shutdown_mgr streams channels timedOut = some out ∧
      out.reply = Except.ok () ∧
      out.closeSendCids = channels ∧
      out.forceCloseCids = (if timedOut then channels else []) ∧
      out.closedStreams = setSendClosed streams := by
  cases channels with
  | nil => exact absurd rfl h
  | cons c cs => exact ⟨_, rfl, rfl, rfl, rfl, rfl⟩

/-- Witness for `shutdown_reply_always_ok` on the timeout path with one
channel and one stream. -/
theorem shutdown_reply_always_ok_witness :
    ([0] : List Cid) ≠ [] ∧
    ∃ out, participant_shutdown_mgr [(5, ⟨7, 1, false⟩)] [0] true = some out ∧
      out.reply = Except.ok () ∧
      out.closeSendCids = [0] ∧
      out.forceCloseCids = (if true then [0] else []) ∧
      out.closedStreams = setSendClosed [(5, ⟨7, 1, false⟩)] :=
  ⟨by decide, shutdown_reply_always_ok [(5, ⟨7, 1, false⟩)] [0] true
    (by decide)⟩

/-! ## Claim C8: the shutdown backoff sequence -/

/-- C8, counterexample.  The loop multiplies the accumulator by 1.4 *before*
the first sleep (participant.rs:520-521), so the first sleep interval is
0.01 × 1.4 = 0.014 s = 14 ms, not the claimed 10 ms. -/
theorem backoff_first_sleep_cex :
    (sleepDurations 1).head? = some ((1 / 100 : ℚ) * (7 / 5)) ∧
    ((1 / 100 : ℚ) * (7 / 5)) ≠ 1 / 100 ∧
    (1 / 100 : ℚ) * (7 / 5) = 7 / 500 := by
  refine ⟨rfl, by norm_num, by norm_num⟩

/-- Helper: the backoff loop starting from accumulator `s` sleeps the
geometric sequence `s·1.4, s·1.4², s·1.4³, …`. -/
theorem sleepLoop_eq_geometric (n : Nat) (s : ℚ) :
    sleepLoop s n = (List.range n).map (fun k => s * (7 / 5) ^ (k + 1)) := by
  induction n generalizing s with
  | zero => rfl
  | succ m ih =>
      show (s * (7 / 5)) :: sleepLoop (s * (7 / 5)) m = _
      rw [ih, List.range_succ_eq_map, List.map_cons, List.map_map]
      have hfun : (fun k => s * (7 / 5) * (7 / 5) ^ (k + 1)) =
          ((fun k => s * (7 / 5) ^ (k + 1)) ∘ Nat.succ) := by
        funext k
        show s * (7 / 5) * (7 / 5) ^ (k + 1) = s * (7 / 5) ^ (k + 1 + 1)
        rw [pow_succ]
        ring
      rw [hfun, pow_one]

/-- C8, amended: while the shutdown coordinator polls the shutdown barrier,
the sleep intervals form an exponential backoff with growth factor 1.4 whose
first interval is 0.01 × 1.4 = 14 ms: the nth sleep lasts 0.01 × 1.4ⁿ
seconds (not 0.01 × 1.4ⁿ⁻¹ — the accumulator is multiplied before each
sleep, including the first). -/
theorem backoff_sleep_durations (n : Nat) :
    sleepDurations n =
      (List.range n).map (fun k => (1 / 100 : ℚ) * (7 / 5) ^ (k + 1)) :=
  sleepLoop_eq_geometric n (1 / 100)

/-! ## Claim C9: recv error handled like Shutdown -/

/-- C9.  The Recv Manager's handling of `Err(_)` on a channel is identical to
its handling of a received `Shutdown` on that channel (participant.rs:403-420):
both request `close_send_protocol(cid)` from the Send Manager (a closed
control queue is tolerated in both branches), both remove that channel's recv
half, neither re-arms the channel, and both exit the loop exactly when the
recv table becomes empty. -/
theorem recv_err_equals_shutdown (streams : List (Sid × StreamInfo))
    (recvCids : List Cid) (cid : Cid) (e : ProtocolError) :
    recvHandleEvent streams recvCids cid (Except.error e) =
      recvHandleEvent streams recvCids cid
        (Except.ok ProtocolEvent.Shutdown) ∧
    (recvHandleEvent streams recvCids cid
        (Except.ok ProtocolEvent.Shutdown)).closeSendRequest = some cid ∧
    (recvHandleEvent streams recvCids cid
        (Except.ok ProtocolEvent.Shutdown)).recvCids =
      removeCid cid recvCids ∧
    (recvHandleEvent streams recvCids cid
        (Except.ok ProtocolEvent.Shutdown)).exited =
      (removeCid cid recvCids).isEmpty ∧
    (recvHandleEvent streams recvCids cid
        (Except.ok ProtocolEvent.Shutdown)).retriggered = false :=
  ⟨rfl, rfl, rfl, rfl, rfl⟩

/-! ## Claim C10: the open-stream reply unwrap -/

/-- C10.  When the Send Manager handles an `open_stream` request (with
channel 0 registered, so the request is actually processed), it panics if and
only if the requesting caller has dropped its one-shot reply receiver —
`return_s.send(stream).unwrap()` (participant.rs:261) — and the panic happens
after the stream was already registered in the stream table, so the handle is
not silently discarded; the open path is panic-free exactly under the
precondition that the reply receiver is still alive. -/
theorem open_reply_unwrap_panics (rp : Pid) (st : SendMgrState)
    (q : List (Sid × MessageBuffer)) (prio : Prio) (promises : Promises)
    (gb : Bandwidth) (alive : Bool)
    (h : st.send_protocols.contains 0 = true) :
    ((sendMgrIter rp st
        (SendMgrInput.openReq (some (prio, promises, gb, alive))) q).status =
      IterStatus.panicked ↔ alive = false) ∧
    (alive = false →
      st.stream_ids ∈ keys (sendMgrIter rp st
        (SendMgrInput.openReq (some (prio, promises, gb, alive)))
        q).state.streams) := by
  simp at h
  cases alive <;> simp [sendMgrIter, h, keys, create_stream]

/-- Witness for `open_reply_unwrap_panics`: a dropped reply receiver at a
one-channel state. -/
theorem open_reply_unwrap_panics_witness :
    ([0] : List Cid).contains 0 = true ∧
    (((sendMgrIter 0 ⟨[0], 1000, []⟩
        (SendMgrInput.openReq (some (7, 1, 100, false))) []).status =
      IterStatus.panicked ↔ (false : Bool) = false) ∧
    ((false : Bool) = false →
      (1000 : Sid) ∈ keys (sendMgrIter 0 ⟨[0], 1000, []⟩
        (SendMgrInput.openReq (some (7, 1, 100, false))) []).state.streams)) :=
  ⟨by decide,
    open_reply_unwrap_panics 0 ⟨[0], 1000, []⟩ [] 7 1 100 false (by decide)⟩
